import Mathlib

/-!
Verification of the transaction categorization and aggregation engine of
`cashapp-analyzer-gui` (`src/analyzer/cashapp_analyzer.py`), shallowly
embedded in Lean 4.  Records are rows of the normalized dataframe; money
amounts are rationals; dates and month periods are integers (ordinal
encodings, only compared for order / equality, exactly as the code does).
-/

namespace CashApp

/-- A normalized transaction record (one dataframe row): `Date`, `Net_Amount`,
`Transaction Type`, `Notes`, `Description`, `Month_Year`, `Category`. -/
structure Record where
  date : Int
  netAmount : ℚ
  txType : String
  notes : String
  description : String
  monthYear : Int
  category : String
deriving DecidableEq, Repr

/-- Predicate `hasPrefixCh pat s` : is `pat` a prefix of `s` (character lists)? -/
def hasPrefixCh : List Char → List Char → Bool
  | [], _ => true
  | _ :: _, [] => false
  | a :: as, b :: bs => a == b && hasPrefixCh as bs

/-- Predicate `hasSubstrCh pat s` : does `pat` occur as a contiguous substring of `s`?
Models Python `pat in s`. -/
def hasSubstrCh (pat : List Char) : List Char → Bool
  | [] => hasPrefixCh pat []
  | c :: rest => hasPrefixCh pat (c :: rest) || hasSubstrCh pat rest

/-- Python `str.upper()` (ASCII, which is all the code's keywords use). -/
def strUpper (s : String) : String := String.mk (s.toList.map Char.toUpper)

/-- Predicate `containsSub s pat` : Python `pat in s` on strings. -/
def containsSub (s pat : String) : Bool := hasSubstrCh pat.toList s.toList

/-- Case-insensitive containment: Python
`Series.str.contains(pat, case=False, na=False)` on a present string. -/
def containsCI (s pat : String) : Bool :=
  hasSubstrCh (pat.toList.map Char.toUpper) (s.toList.map Char.toUpper)

/-- Food & Dining keyword list of `_categorize_cash_card_expense`. -/
def food_keywords : List String :=
  ["CHIPOTLE", "MCDONALD", "STARBUCKS", "WAFFLE HOUSE", "WHATABURGER",
   "ZAXBY", "MARCOS PIZZA", "JETS PIZZA", "TROPICAL SMOOTHIE", "DELI",
   "JAX BEACH BRUNCH", "RESTAURANT", "QUE ONDA", "HABERDISH", "SAKE HOUSE",
   "CREPE", "WINN-DIXIE", "JUICE TAP", "AKELS DELI", "ANDREW\x60S DELI",
   "PENMAN HOSPITALITY", "GEMMA FISH OYSTER", "WORKMAN\x27S FRIEND",
   "FRENCHY\x27S SIP", "SPO*LACOCINAMEXICANARESTA"]

/-- Entertainment & Media keyword list. -/
def entertainment_keywords : List String :=
  ["NETFLIX", "SPOTIFY", "YOUTUBE", "STEAM", "ROKU", "MAX.COM", "DECCA LIVE",
   "HOPTINGER", "SURFER THE BAR", "BRIX TAPHOUSE", "STEAMGAMES.COM"]

/-- Gas & Travel keyword list. -/
def travel_keywords : List String :=
  ["LOVE\x27S", "7-ELEVEN", "AMERICAN AIRLINES", "XPRESS SHOP"]

/-- Healthcare & Fitness keyword list. -/
def health_keywords : List String :=
  ["DENTAL", "MEDICAL", "CRUNCH FITNESS", "WEST BEACHES DENTAL"]

/-- Golf & Recreation keyword list. -/
def golf_keywords : List String :=
  ["GOLF", "MUNICIPAL", "WHITEWATER", "HULAWEENTIX", "CAROLINA LAKES GOL",
   "ST AUGUSTINE SHORES GC", "JCKSNVL BCH MUNICPL GL", "JACKSONVILLE BEACH GOLF",
   "BLUE SKY GOLF CLUB", "MARSH LANDING COUNTRY CLU"]

/-- Subscriptions & Services keyword list. -/
def subscription_keywords : List String :=
  ["APPLE.COM", "GOOGLE", "MICROSOFT", "COMCAST", "OBSIDIAN", "KINDLE SVCS",
   "HELP.MAX.COM", "CLKBANK*VINCHECKUP", "THE ROKU CHANNEL"]

/-- Shopping keyword list. -/
def shopping_keywords : List String :=
  ["AMAZON", "WALGREENS", "SUNRISE SURF", "ARGYLE", "SP FREAK ATHLETE",
   "SP TITAN FITNESS", "NNT MENS WEARHOUSE"]

/-- Transportation keyword list. -/
def transport_keywords : List String := ["CDOT PAY BY CELL"]

/-- Insurance & Financial keyword list. -/
def financial_keywords : List String :=
  ["STATE FARM", "CAPITAL ONE", "APPLE CASH SENT MONEY"]

/-- Housing & Rent keyword list. -/
def housing_keywords : List String :=
  ["YSI*PROGRESS RESIDENTIAL", "PROGRESS RESIDENTIAL"]

/-- Travel & Tourism keyword list. -/
def tourism_keywords : List String :=
  ["VIATORTRIPADVISOR", "AIRBNB", "FGT*HULAWEENTIX"]

/-- Does any keyword of the list occur in the merchant string?  Models the
per-category `for keyword in ...: if keyword in merchant: return ...` loop. -/
def anyKeyword (kws : List String) (merchant : String) : Bool :=
  kws.any (fun k => containsSub merchant k)

/-- Source `_categorize_cash_card_expense`: uppercase the merchant text, then test
the per-category keyword lists in the source's fixed order; the first list
with a containing keyword decides, default `Other Expenses`. -/
def _categorize_cash_card_expense (merchant_name : String) : String :=
  let merchant := strUpper merchant_name
  if anyKeyword food_keywords merchant then "Food & Dining"
  else if anyKeyword entertainment_keywords merchant then "Entertainment & Media"
  else if anyKeyword travel_keywords merchant then "Gas & Travel"
  else if anyKeyword health_keywords merchant then "Healthcare & Fitness"
  else if anyKeyword golf_keywords merchant then "Golf & Recreation"
  else if anyKeyword subscription_keywords merchant then "Subscriptions & Services"
  else if anyKeyword shopping_keywords merchant then "Shopping"
  else if anyKeyword transport_keywords merchant then "Transportation"
  else if anyKeyword financial_keywords merchant then "Insurance & Financial"
  else if anyKeyword housing_keywords merchant then "Housing & Rent"
  else if anyKeyword tourism_keywords merchant then "Travel & Tourism"
  else "Other Expenses"

/-- The crypto-buy transaction types (`['Bitcoin Buy', 'Bitcoin Recurring Buy']`). -/
def bitcoinTypes : List String := ["Bitcoin Buy", "Bitcoin Recurring Buy"]

/-- The confirmed-DCA allow-list of amounts (`savings_amounts = [318.28]`). -/
def savings_amounts : List ℚ := [318.28]

/-- The category cascade of `categorize_transactions` for a single row.
Each `let` is one rule of the source, applied in the source's order; a rule
that matches overwrites the category accumulated so far, starting from the
reset value `'Other'`.  Rule 5 reads the category written by the earlier
rules of the same pass (`existing_bitcoin_mask`), which is `c4` here.
The incoming `Category` column is never read (the pass resets it first). -/
def classifyRecord (r : Record) : String :=
  let c0 := "Other"
  let c1 := if containsCI r.notes "THE ENERGY AUTHO DIRECT DEP" then "Income" else c0
  let c2 :=
    if (r.txType = "Bitcoin Buy" ∨ r.txType = "Bitcoin Recurring Buy") ∧
        (10 : ℚ) ≤ |r.netAmount| then "Investment (Bitcoin)"
    else if (r.txType = "Bitcoin Buy" ∨ r.txType = "Bitcoin Recurring Buy") ∧
        |r.netAmount| < (10 : ℚ) then "Micro-DCA (Bitcoin)"
    else c1
  let c3 :=
    if r.txType = "Savings Internal Transfer" then
      (if containsCI r.notes "purchase of BTC" then "Investment (Bitcoin Savings)"
       else "Savings Transfer")
    else c2
  let c4 := if r.txType = "Deposits" then "Internal Transfer" else c3
  let c5 :=
    if (∃ a ∈ savings_amounts, r.netAmount = -a) ∧
        r.txType = "Savings Internal Transfer" ∧
        r.txType ∉ bitcoinTypes ∧
        c4 ∉ ["Investment (Bitcoin)", "Micro-DCA (Bitcoin)"] then
      "Investment (DCA Savings)"
    else c4
  let c6 :=
    if (r.netAmount = -1000 ∨ r.netAmount = 1000) ∧ r.txType ∉ bitcoinTypes then
      "Rent Offset (Internal)"
    else c5
  let c7 := if r.txType = "P2P" then "P2P Transfer" else c6
  let c8 := if r.txType = "Cash Card"
            then _categorize_cash_card_expense (strUpper r.notes) else c7
  let c9 := if r.txType = "Withdrawal" then "Withdrawal" else c8
  if r.txType = "Savings Interest Payment" then "Interest" else c9

/-- Source `categorize_transactions`: reset every category and run the cascade over
every row.  Only the `Category` column is written. -/
def categorize_transactions (rs : List Record) : List Record :=
  rs.map (fun r => { r with category := classifyRecord r })

/-- The internal-transfer category labels excluded from income/expense math
(`internal_categories` in `generate_report`). -/
def internal_categories : List String :=
  ["Internal Transfer", "Rent Offset (Internal)", "Savings Transfer", "Deposits"]

/-- The investment category labels tracked separately
(`investment_categories` in `generate_report`). -/
def investment_categories : List String :=
  ["Investment (Bitcoin)", "Investment (DCA Savings)", "Investment (Bitcoin Savings)",
   "Investment (Potential DCA)"]

/-- Sum of the `Net_Amount` column (`df['Net_Amount'].sum()`). -/
def sumAmounts (rs : List Record) : ℚ := (rs.map Record.netAmount).sum

/-- Source `expense_data` of `generate_report`: negative amounts whose category is in
neither the internal list nor the investment list. -/
def expense_data (rs : List Record) : List Record :=
  rs.filter (fun r =>
    r.netAmount < 0 ∧ r.category ∉ internal_categories ∧ r.category ∉ investment_categories)

/-- Source `income_data` of `generate_report`: positive amounts whose category is not
in the internal list.  (The source does not exclude the investment list here.) -/
def income_data (rs : List Record) : List Record :=
  rs.filter (fun r => 0 < r.netAmount ∧ r.category ∉ internal_categories)

/-- Source `investment_data` of `generate_report`: negative amounts whose category is
in the investment list. -/
def investment_data (rs : List Record) : List Record :=
  rs.filter (fun r => r.netAmount < 0 ∧ r.category ∈ investment_categories)

/-- The income partition as spec §4.3 words it: positive amounts whose
category is in neither the internal list nor the investment list.  Kept for
comparison against `income_data`, which is translated from the source. -/
def income_data_claimed (rs : List Record) : List Record :=
  rs.filter (fun r =>
    0 < r.netAmount ∧ r.category ∉ internal_categories ∧ r.category ∉ investment_categories)

/-- The date-range mask `(df['Date'] >= start) & (df['Date'] <= end)`. -/
def filterRange (rs : List Record) (startDate endDate : Int) : List Record :=
  rs.filter (fun r => startDate ≤ r.date ∧ r.date ≤ endDate)

/-- Pandas `value_counts().index[0]`: a category with the maximal count
(`none` on an empty set). -/
def mostFrequent (cs : List String) : Option String :=
  match cs.dedup with
  | [] => none
  | c :: rest => some (rest.foldl (fun best x => if cs.count best < cs.count x then x else best) c)

/-- The figures of `generate_report` that the spec's claims are about:
basic statistics, the role-partition totals, the two net-cash-flow figures,
the rate metrics (absent when `total_income > 0` fails, as the source emits
those report lines only under that guard), and the guarded single-record
statistics (absent exactly when their source set is empty). -/
structure Report where
  totalTransactions : Nat
  dateRange : Option (Int × Int)
  netAmount : ℚ
  totalIncome : ℚ
  totalExpenses : ℚ
  totalInvestments : ℚ
  netExclInvestments : ℚ
  netInclInvestments : ℚ
  rates : Option (ℚ × ℚ × ℚ)
  mostFrequentCategory : Option String
  largestExpense : Option ℚ
  largestIncome : Option ℚ
deriving DecidableEq, Repr

/-- Source `generate_report` over an (already date-filtered) categorized record set.
Mirrors the source: `total_income`/`total_expenses`/`total_investments` are the
sums over `income_data`/`expense_data`/`investment_data` (0 when empty, which
is the sum of the empty set anyway), `net_amount_excluding_investments =
total_income + total_expenses`, `net_amount_including_investments =
net_amount_excluding_investments - total_investments`, and the three rate
lines exist only when `total_income > 0`. -/
def generate_report (rs : List Record) : Report :=
  let ti := sumAmounts (income_data rs)
  let te := sumAmounts (expense_data rs)
  let tv := |sumAmounts (investment_data rs)|
  let nex := ti + te
  let nin := nex - tv
  { totalTransactions := rs.length
    dateRange :=
      match rs.map Record.date with
      | [] => none
      | d :: ds => some (ds.foldl min d, ds.foldl max d)
    netAmount := if 0 < rs.length then sumAmounts rs else 0
    totalIncome := ti
    totalExpenses := te
    totalInvestments := tv
    netExclInvestments := nex
    netInclInvestments := nin
    rates :=
      if 0 < ti then some ((nex / ti) * 100, (tv / ti) * 100, (nex / ti) * 100 + (tv / ti) * 100)
      else none
    mostFrequentCategory := mostFrequent (rs.map Record.category)
    largestExpense :=
      match expense_data rs with
      | [] => none
      | r :: rest => some |rest.foldl (fun m x => min m x.netAmount) r.netAmount|
    largestIncome :=
      match income_data rs with
      | [] => none
      | r :: rest => some (rest.foldl (fun m x => max m x.netAmount) r.netAmount) }

/-- Source `generate_report` with a `[start, end]` date range (inclusive both ends). -/
def generate_report_range (rs : List Record) (startDate endDate : Int) : Report :=
  generate_report (filterRange rs startDate endDate)

/-- Source `generate_monthly_summary`: filter to the date range, then per
`Month_Year` period the total amount and the transaction count. -/
def generate_monthly_summary (rs : List Record) (startDate endDate : Int) :
    List (Int × ℚ × Nat) :=
  let f := filterRange rs startDate endDate
  ((f.map Record.monthYear).dedup).map (fun p =>
    (p, sumAmounts (f.filter (fun r => r.monthYear = p)),
     (f.filter (fun r => r.monthYear = p)).length))

/-- The merchant keyword table of `_categorize_cash_card_expense` as ordered
configuration data: category, keyword list, in the source's order. -/
def merchant_keyword_table : List (String × List String) :=
  [("Food & Dining", food_keywords),
   ("Entertainment & Media", entertainment_keywords),
   ("Gas & Travel", travel_keywords),
   ("Healthcare & Fitness", health_keywords),
   ("Golf & Recreation", golf_keywords),
   ("Subscriptions & Services", subscription_keywords),
   ("Shopping", shopping_keywords),
   ("Transportation", transport_keywords),
   ("Insurance & Financial", financial_keywords),
   ("Housing & Rent", housing_keywords),
   ("Travel & Tourism", tourism_keywords)]

/-- First-match lookup over a keyword table, default `Other Expenses`. -/
def firstMatchCategory (merchant : String) : List (String × List String) → String
  | [] => "Other Expenses"
  | (cat, kws) :: rest =>
    if anyKeyword kws merchant then cat else firstMatchCategory merchant rest

example : _categorize_cash_card_expense "STARBUCKS #123" = "Food & Dining" := by decide

example :
    classifyRecord
      { date := 0, netAmount := -1000, txType := "Savings Internal Transfer",
        notes := "purchase of BTC", description := "", monthYear := 0,
        category := "Other" } = "Rent Offset (Internal)" := by
  norm_num [classifyRecord, savings_amounts, bitcoinTypes]
  decide

example :
    classifyRecord
      { date := 0, netAmount := -(318.28 : ℚ), txType := "Savings Internal Transfer",
        notes := "purchase of BTC", description := "", monthYear := 0,
        category := "Other" } = "Investment (DCA Savings)" := by
  norm_num [classifyRecord, savings_amounts, bitcoinTypes]
  decide

/-- The classifier never reads the incoming `Category` column: the pass
resets it to `'Other'` before any rule runs. -/
theorem classifyRecord_category_irrel (r : Record) (c : String) :
    classifyRecord { r with category := c } = classifyRecord r := rfl

/-- The non-category columns of a record: the frame of the classification pass. -/
def recordFields (r : Record) : Int × ℚ × String × String × String × Int :=
  (r.date, r.netAmount, r.txType, r.notes, r.description, r.monthYear)

/-- C9: Classification is idempotent: running `categorize_transactions` twice
produces exactly the category assignment of running it once, because the pass
begins by resetting every category to `'Other'` and each rule reads only the
record's own immutable fields and categories written earlier in the same pass. -/
theorem categorize_transactions_idempotent (rs : List Record) :
    categorize_transactions (categorize_transactions rs) = categorize_transactions rs := by
  unfold categorize_transactions
  rw [List.map_map]
  apply List.map_congr_left
  intro r _
  show { r with category := classifyRecord { r with category := classifyRecord r } }
      = { r with category := classifyRecord r }
  rw [classifyRecord_category_irrel]

/-- C9 witness: idempotence at a concrete one-record set. -/
theorem categorize_transactions_idempotent_witness :
    categorize_transactions (categorize_transactions
      [{ date := 0, netAmount := -5, txType := "Bitcoin Buy", notes := "",
         description := "", monthYear := 0, category := "Other" }]) =
    categorize_transactions
      [{ date := 0, netAmount := -5, txType := "Bitcoin Buy", notes := "",
         description := "", monthYear := 0, category := "Other" }] :=
  categorize_transactions_idempotent _

/-- C10: The classification pass writes only the `Category` column: every other
field of every record is unchanged and no records are added or removed. -/
theorem categorize_transactions_frame (rs : List Record) :
    (categorize_transactions rs).map recordFields = rs.map recordFields ∧
    (categorize_transactions rs).length = rs.length := by
  constructor
  · unfold categorize_transactions
    rw [List.map_map]
    apply List.map_congr_left
    intro r _
    rfl
  · unfold categorize_transactions
    exact List.length_map rs _

/-- C10 witness: the frame property at a concrete one-record set. -/
theorem categorize_transactions_frame_witness :
    (categorize_transactions
      [{ date := 3, netAmount := 7, txType := "P2P", notes := "n",
         description := "d", monthYear := 1, category := "x" }]).map recordFields =
      [{ date := 3, netAmount := 7, txType := "P2P", notes := "n",
         description := "d", monthYear := 1, category := "x" }].map recordFields ∧
    (categorize_transactions
      [{ date := 3, netAmount := 7, txType := "P2P", notes := "n",
         description := "d", monthYear := 1, category := "x" }]).length =
      [({ date := 3, netAmount := 7, txType := "P2P", notes := "n",
          description := "d", monthYear := 1, category := "x" } : Record)].length :=
  categorize_transactions_frame _

/-- C4: In every report, the net cash flow excluding investments equals
`total_income + total_expenses` (expenses kept signed) and the net cash flow
including investments equals `total_income + total_expenses -
total_investments`; the two figures are separate report fields. -/
theorem report_cash_flow_identity (rs : List Record) :
    (generate_report rs).netExclInvestments
        = (generate_report rs).totalIncome + (generate_report rs).totalExpenses ∧
    (generate_report rs).netInclInvestments
        = (generate_report rs).totalIncome + (generate_report rs).totalExpenses
            - (generate_report rs).totalInvestments :=
  ⟨rfl, rfl⟩

/-- C4 witness: the identity at a concrete record set. -/
theorem report_cash_flow_identity_witness :
    (generate_report
      [{ date := 0, netAmount := 20, txType := "", notes := "", description := "",
         monthYear := 0, category := "Other" }]).netExclInvestments
        = (generate_report
      [{ date := 0, netAmount := 20, txType := "", notes := "", description := "",
         monthYear := 0, category := "Other" }]).totalIncome +
          (generate_report
      [{ date := 0, netAmount := 20, txType := "", notes := "", description := "",
         monthYear := 0, category := "Other" }]).totalExpenses :=
  (report_cash_flow_identity _).1

/-- A savings-transfer record of exactly -1000.00 whose notes mark a BTC purchase. -/
def c1Record : Record :=
  { date := 0, netAmount := -1000, txType := "Savings Internal Transfer",
    notes := "Transfer for purchase of BTC", description := "Transfer for purchase of BTC",
    monthYear := 0, category := "Other" }

/-- C1 counterexample: the record satisfies the claim's conditions (savings
transfer, net -1000.00, notes containing "purchase of BTC"), yet a full
classification pass ends with `Rent Offset (Internal)`, not
`Investment (Bitcoin Savings)`: the fixed-offset rule excludes only the
crypto-buy transaction types, so it overwrites rule 3's assignment. -/
theorem c1_fixed_offset_overwrites_counterexample :
    containsCI c1Record.notes "purchase of BTC" = true ∧
    (categorize_transactions [c1Record]).map Record.category = ["Rent Offset (Internal)"] ∧
    ¬ (categorize_transactions [c1Record]).map Record.category
        = ["Investment (Bitcoin Savings)"] := by
  refine ⟨by decide, ?_, ?_⟩ <;>
  · norm_num [categorize_transactions, classifyRecord, c1Record, savings_amounts, bitcoinTypes]
    decide

/-- C1 (amended): for every record with `transaction_type` the internal
savings transfer type, `net_amount = -1000.00` and notes containing
"purchase of BTC" (case-insensitive), the final category after a full
classification pass is `Rent Offset (Internal)`: the fixed-offset rule runs
after rule 3 and its exclusion covers only the crypto-buy transaction types,
so it does overwrite the crypto-savings assignment. -/
theorem savings_btc_minus1000_final_category (r : Record)
    (ht : r.txType = "Savings Internal Transfer")
    (ha : r.netAmount = -1000)
    (hn : containsCI r.notes "purchase of BTC" = true) :
    classifyRecord r = "Rent Offset (Internal)" := by
  norm_num [classifyRecord, ht, ha, hn, savings_amounts, bitcoinTypes]
  simp +decide

/-- C1 witness: the amended theorem applied at the concrete record. -/
theorem savings_btc_minus1000_final_category_witness :
    classifyRecord c1Record = "Rent Offset (Internal)" :=
  savings_btc_minus1000_final_category c1Record rfl (by norm_num [c1Record]) (by decide)

/-- A savings-transfer record of the allow-listed amount whose notes mark a
BTC purchase: rule 3 categorizes it `Investment (Bitcoin Savings)`. -/
def c2Record : Record :=
  { date := 0, netAmount := -(318.28 : ℚ), txType := "Savings Internal Transfer",
    notes := "Transfer for purchase of BTC", description := "Transfer for purchase of BTC",
    monthYear := 0, category := "Other" }

/-- C2 counterexample: a record rule 3 categorizes as
`Investment (Bitcoin Savings)` (savings type, BTC notes) with net -318.28 IS
overwritten by rule 5 to `Investment (DCA Savings)`: the rule's exclusion list
is only `['Investment (Bitcoin)', 'Micro-DCA (Bitcoin)']`. -/
theorem c2_dca_overwrites_crypto_savings_counterexample :
    containsCI c2Record.notes "purchase of BTC" = true ∧
    c2Record.txType = "Savings Internal Transfer" ∧
    c2Record.netAmount = -(318.28 : ℚ) ∧
    (categorize_transactions [c2Record]).map Record.category = ["Investment (DCA Savings)"] := by
  refine ⟨by decide, by decide, by norm_num [c2Record], ?_⟩
  norm_num [categorize_transactions, classifyRecord, c2Record, savings_amounts, bitcoinTypes]
  decide

/-- C2 (amended): rule 5 overwrites every savings-transfer record with
`net_amount = -318.28` to `Investment (DCA Savings)`, whether or not rule 3
categorized it as a crypto investment: its not-already-categorized guard
names only rule 2's labels (`Investment (Bitcoin)`, `Micro-DCA (Bitcoin)`),
which cannot occur on savings-transfer-typed records, so
`Investment (Bitcoin Savings)` is overwritten too. -/
theorem savings_dca_amount_final_category (r : Record)
    (ht : r.txType = "Savings Internal Transfer")
    (ha : r.netAmount = -(318.28 : ℚ)) :
    classifyRecord r = "Investment (DCA Savings)" := by
  by_cases hb : containsCI r.notes "purchase of BTC" = true
  · norm_num [classifyRecord, ht, ha, hb, savings_amounts, bitcoinTypes]
    simp +decide
  · norm_num [classifyRecord, ht, ha, hb, savings_amounts, bitcoinTypes]
    simp +decide

/-- C2 witness: the amended theorem applied at the concrete record. -/
theorem savings_dca_amount_final_category_witness :
    classifyRecord c2Record = "Investment (DCA Savings)" :=
  savings_dca_amount_final_category c2Record rfl (by norm_num [c2Record])

/-- C5: for every crypto-buy-typed record (`Bitcoin Buy` or
`Bitcoin Recurring Buy`), `|net_amount| ≥ 10` yields final category
`Investment (Bitcoin)` and `|net_amount| < 10` yields `Micro-DCA (Bitcoin)`. -/
theorem crypto_buy_threshold (r : Record)
    (ht : r.txType = "Bitcoin Buy" ∨ r.txType = "Bitcoin Recurring Buy") :
    ((10 : ℚ) ≤ |r.netAmount| → classifyRecord r = "Investment (Bitcoin)") ∧
    (|r.netAmount| < 10 → classifyRecord r = "Micro-DCA (Bitcoin)") := by
  constructor <;> intro h <;> rcases ht with ht | ht <;>
    norm_num [classifyRecord, ht, h, not_le.mpr, savings_amounts, bitcoinTypes] <;>
    simp +decide

/-- A $10.00 Bitcoin buy: exactly at the investment threshold. -/
def buy10Record : Record :=
  { date := 0, netAmount := -10, txType := "Bitcoin Buy", notes := "",
    description := "", monthYear := 0, category := "Other" }

/-- A $5.00 Bitcoin buy: below the investment threshold. -/
def buy5Record : Record :=
  { date := 0, netAmount := -5, txType := "Bitcoin Buy", notes := "",
    description := "", monthYear := 0, category := "Other" }

/-- C5 witness: net -10.00 is an investment, net -5.00 is micro-DCA. -/
theorem crypto_buy_threshold_witness :
    classifyRecord buy10Record = "Investment (Bitcoin)" ∧
    classifyRecord buy5Record = "Micro-DCA (Bitcoin)" :=
  ⟨(crypto_buy_threshold buy10Record (Or.inl rfl)).1 (by norm_num [buy10Record]),
   (crypto_buy_threshold buy5Record (Or.inl rfl)).2 (by norm_num [buy5Record])⟩

/-- First-match lookup lands in the default label or a category of the table. -/
theorem firstMatchCategory_mem (m : String) (tbl : List (String × List String)) :
    firstMatchCategory m tbl ∈ "Other Expenses" :: tbl.map Prod.fst := by
  induction tbl with
  | nil => simp [firstMatchCategory]
  | cons p rest ih =>
    rcases p with ⟨cat, kws⟩
    rw [firstMatchCategory]
    by_cases h : anyKeyword kws m = true
    · rw [if_pos h]
      simp
    · rw [if_neg h, List.map_cons]
      rcases List.mem_cons.mp ih with h1 | h1
      · rw [h1]
        exact List.mem_cons_self _ _
      · exact List.mem_cons_of_mem _ (List.mem_cons_of_mem _ h1)

/-- First-match lookup returns the default label exactly when no keyword of
any list matches, provided the default label is not a table category. -/
theorem firstMatchCategory_default_iff (m : String) (tbl : List (String × List String))
    (hne : "Other Expenses" ∉ tbl.map Prod.fst) :
    (firstMatchCategory m tbl = "Other Expenses"
      ↔ ∀ p ∈ tbl, anyKeyword p.2 m = false) := by
  induction tbl with
  | nil => simp [firstMatchCategory]
  | cons p rest ih =>
    rcases p with ⟨cat, kws⟩
    have hcat : ¬ (cat = "Other Expenses") := by
      intro hc
      exact hne (by simp [hc])
    have hne' : "Other Expenses" ∉ rest.map Prod.fst := by
      intro hm
      exact hne (by simp [hm])
    rw [firstMatchCategory]
    by_cases h : anyKeyword kws m = true
    · rw [if_pos h]
      constructor
      · intro hc
        exact absurd hc hcat
      · intro hall
        have hk := hall (cat, kws) (List.mem_cons_self _ _)
        simp [h] at hk
    · rw [if_neg h, ih hne']
      have hfalse : anyKeyword kws m = false := by
        cases hk : anyKeyword kws m
        · rfl
        · exact absurd hk h
      constructor
      · intro hall p hp
        rcases List.mem_cons.mp hp with hp' | hp'
        · rw [hp']
          exact hfalse
        · exact hall p hp'
      · intro hall p hp
        exact hall p (List.mem_cons_of_mem _ hp)

/-- C6: the merchant sub-classifier is total into the fixed label set; it
equals first-match lookup over the ordered keyword table (keyword substring
containment against the uppercased notes, first containing match wins);
it returns `Other Expenses` iff no keyword of any list matches; and
"STARBUCKS #123" is classified `Food & Dining`. -/
theorem cash_card_classifier_correct (notes : String) :
    _categorize_cash_card_expense notes
        = firstMatchCategory (strUpper notes) merchant_keyword_table ∧
    _categorize_cash_card_expense notes
        ∈ "Other Expenses" :: merchant_keyword_table.map Prod.fst ∧
    (_categorize_cash_card_expense notes = "Other Expenses"
        ↔ ∀ p ∈ merchant_keyword_table, anyKeyword p.2 (strUpper notes) = false) ∧
    _categorize_cash_card_expense "STARBUCKS #123" = "Food & Dining" := by
  have he : _categorize_cash_card_expense notes
      = firstMatchCategory (strUpper notes) merchant_keyword_table := by
    simp [merchant_keyword_table, firstMatchCategory, _categorize_cash_card_expense]
  refine ⟨he, ?_, ?_, by decide⟩
  · rw [he]
    exact firstMatchCategory_mem _ _
  · rw [he]
    exact firstMatchCategory_default_iff _ _ (by decide)

/-- C6 witness: the theorem applied at the concrete notes "STARBUCKS #123". -/
theorem cash_card_classifier_correct_witness :
    _categorize_cash_card_expense "STARBUCKS #123"
        = firstMatchCategory (strUpper "STARBUCKS #123") merchant_keyword_table ∧
    _categorize_cash_card_expense "STARBUCKS #123" = "Food & Dining" :=
  ⟨(cash_card_classifier_correct "STARBUCKS #123").1,
   (cash_card_classifier_correct "STARBUCKS #123").2.2.2⟩

/-- Absolute value of a sum of nonpositive rationals is the sum of the
absolute values (and such a sum is nonpositive). -/
theorem abs_sum_eq_sum_abs_of_nonpos (l : List ℚ) (h : ∀ x ∈ l, x ≤ 0) :
    |l.sum| = (l.map (fun x => |x|)).sum ∧ l.sum ≤ 0 := by
  induction l with
  | nil => simp
  | cons x t ih =>
    have hx : x ≤ 0 := h x (List.mem_cons_self _ _)
    obtain ⟨ih1, ih2⟩ := ih (fun y hy => h y (List.mem_cons_of_mem _ hy))
    constructor
    · simp only [List.sum_cons, List.map_cons]
      rw [abs_of_nonpos (add_nonpos hx ih2), abs_of_nonpos hx, ← ih1, abs_of_nonpos ih2]
      ring
    · simp only [List.sum_cons]
      exact add_nonpos hx ih2

/-- A positive-amount crypto buy: after classification its category is in the
investment list while its amount is positive. -/
def c3Record : Record :=
  { date := 0, netAmount := 50, txType := "Bitcoin Buy", notes := "",
    description := "", monthYear := 0, category := "Other" }

/-- C3 counterexample: over the categorized one-record set holding a +50.00
`Bitcoin Buy` (categorized `Investment (Bitcoin)`, an Investment label),
`generate_report`'s income partition sums 50 — it excludes only the
Internal-Transfer labels — while the claim's income partition (which also
excludes the Investment labels) would sum 0. -/
theorem c3_income_partition_counterexample :
    (categorize_transactions [c3Record]).map Record.category = ["Investment (Bitcoin)"] ∧
    sumAmounts (income_data (categorize_transactions [c3Record])) = 50 ∧
    sumAmounts (income_data_claimed (categorize_transactions [c3Record])) = 0 := by
  have hc : (categorize_transactions [c3Record]).map Record.category
      = ["Investment (Bitcoin)"] := by
    norm_num [categorize_transactions, classifyRecord, c3Record, savings_amounts, bitcoinTypes]
    simp +decide
  refine ⟨hc, ?_, ?_⟩ <;>
  · norm_num [categorize_transactions, classifyRecord, c3Record, savings_amounts,
      bitcoinTypes, income_data, income_data_claimed, sumAmounts, internal_categories,
      investment_categories, List.filter]
    simp +decide

/-- C3 (amended): in `generate_report`, the income total sums `net_amount`
over records with positive amount whose category is not an Internal-Transfer
label (records carrying an Investment label but a positive amount are
included); the expense total sums negative-amount records excluded from both
label lists; the investment total sums `|net_amount|` over negative-amount
records with an Investment label; and no record can satisfy two of the three
partition predicates. -/
theorem report_partitions (rs : List Record) :
    (generate_report rs).totalIncome
        = sumAmounts (rs.filter (fun r =>
            0 < r.netAmount ∧ r.category ∉ internal_categories)) ∧
    (generate_report rs).totalExpenses
        = sumAmounts (rs.filter (fun r =>
            r.netAmount < 0 ∧ r.category ∉ internal_categories ∧
              r.category ∉ investment_categories)) ∧
    (generate_report rs).totalInvestments
        = ((rs.filter (fun r =>
            r.netAmount < 0 ∧ r.category ∈ investment_categories)).map
              (fun r => |r.netAmount|)).sum ∧
    (∀ r : Record,
      ¬ ((0 < r.netAmount ∧ r.category ∉ internal_categories) ∧
         (r.netAmount < 0 ∧ r.category ∉ internal_categories ∧
            r.category ∉ investment_categories))) ∧
    (∀ r : Record,
      ¬ ((0 < r.netAmount ∧ r.category ∉ internal_categories) ∧
         (r.netAmount < 0 ∧ r.category ∈ investment_categories))) ∧
    (∀ r : Record,
      ¬ ((r.netAmount < 0 ∧ r.category ∉ internal_categories ∧
            r.category ∉ investment_categories) ∧
         (r.netAmount < 0 ∧ r.category ∈ investment_categories))) := by
  refine ⟨rfl, rfl, ?_, ?_, ?_, ?_⟩
  · have hneg : ∀ x ∈ (investment_data rs).map Record.netAmount, x ≤ 0 := by
      intro x hx
      rcases List.mem_map.mp hx with ⟨r, hr, rfl⟩
      have hp := (List.mem_filter.mp hr).2
      simp only [decide_eq_true_eq] at hp
      exact le_of_lt hp.1
    have h1 := (abs_sum_eq_sum_abs_of_nonpos _ hneg).1
    show |sumAmounts (investment_data rs)| = _
    rw [sumAmounts, h1, List.map_map]
    rfl
  · rintro r ⟨⟨h1, -⟩, h2, -⟩
    exact absurd h1 (not_lt.mpr (le_of_lt h2))
  · rintro r ⟨⟨h1, -⟩, h2, -⟩
    exact absurd h1 (not_lt.mpr (le_of_lt h2))
  · rintro r ⟨⟨-, -, h1⟩, -, h2⟩
    exact h1 h2

/-- C3 witness: the amended theorem at the concrete categorized one-record
set of `c3Record`. -/
theorem report_partitions_witness :
    (generate_report (categorize_transactions [c3Record])).totalIncome
        = sumAmounts ((categorize_transactions [c3Record]).filter (fun r =>
            0 < r.netAmount ∧ r.category ∉ internal_categories)) :=
  (report_partitions (categorize_transactions [c3Record])).1

/-- C7: when the income total is positive, the report's savings rate is
`(income + expenses) / income × 100` and its investment rate is
`investments / income × 100` (the third figure is their sum); when the income
total is zero the rate lines are absent (`none`) — report generation is total,
performs no division in that case, and a rational-valued report can hold no
NaN or infinity. -/
theorem report_rates_guarded (rs : List Record) :
    (0 < (generate_report rs).totalIncome →
      (generate_report rs).rates = some
        ((((generate_report rs).totalIncome + (generate_report rs).totalExpenses)
            / (generate_report rs).totalIncome) * 100,
         ((generate_report rs).totalInvestments / (generate_report rs).totalIncome) * 100,
         (((generate_report rs).totalIncome + (generate_report rs).totalExpenses)
            / (generate_report rs).totalIncome) * 100
           + ((generate_report rs).totalInvestments / (generate_report rs).totalIncome) * 100)) ∧
    ((generate_report rs).totalIncome = 0 → (generate_report rs).rates = none) := by
  constructor <;> intro h <;>
    simp only [generate_report] at h ⊢
  · rw [if_pos h]
  · rw [if_neg]
    rw [h]
    exact lt_irrefl 0

/-- A plain positive-income record. -/
def c7Record : Record :=
  { date := 0, netAmount := 100, txType := "", notes := "", description := "",
    monthYear := 0, category := "Income" }

/-- C7 witness: a one-record set with income 100 yields rates
(100%, 0%, 100%); the empty set has income 0 and no rates. -/
theorem report_rates_guarded_witness :
    (generate_report [c7Record]).rates = some (100, 0, 100) ∧
    (generate_report ([] : List Record)).rates = none := by
  constructor
  · have hpos : (0 : ℚ) < (generate_report [c7Record]).totalIncome := by
      norm_num [generate_report, sumAmounts, income_data, c7Record, internal_categories,
        List.filter]
      simp +decide
    rw [(report_rates_guarded [c7Record]).1 hpos]
    norm_num [generate_report, sumAmounts, income_data, expense_data, investment_data,
      c7Record, internal_categories, investment_categories, List.filter]
    simp +decide
  · exact (report_rates_guarded []).2 (by simp [generate_report, sumAmounts, income_data,
      List.filter])

/-- C8: a date-range filter that selects no records yields a report whose
every metric is zero or absent, and an empty monthly summary — with no
failure (the embedding is total): total transactions 0, net amount 0, no
date range, all partition totals and both net-cash-flow figures 0, no rates,
no most-frequent category, no largest expense or income. -/
theorem empty_filtered_report (rs : List Record) (startDate endDate : Int)
    (h : filterRange rs startDate endDate = []) :
    (generate_report_range rs startDate endDate).totalTransactions = 0 ∧
    (generate_report_range rs startDate endDate).netAmount = 0 ∧
    (generate_report_range rs startDate endDate).dateRange = none ∧
    (generate_report_range rs startDate endDate).totalIncome = 0 ∧
    (generate_report_range rs startDate endDate).totalExpenses = 0 ∧
    (generate_report_range rs startDate endDate).totalInvestments = 0 ∧
    (generate_report_range rs startDate endDate).netExclInvestments = 0 ∧
    (generate_report_range rs startDate endDate).netInclInvestments = 0 ∧
    (generate_report_range rs startDate endDate).rates = none ∧
    (generate_report_range rs startDate endDate).mostFrequentCategory = none ∧
    (generate_report_range rs startDate endDate).largestExpense = none ∧
    (generate_report_range rs startDate endDate).largestIncome = none ∧
    generate_monthly_summary rs startDate endDate = [] := by
  simp [generate_report_range, generate_monthly_summary, h, generate_report, sumAmounts,
    income_data, expense_data, investment_data, mostFrequent, List.filter]

/-- A record dated outside the witness's query range. -/
def c8Record : Record :=
  { date := 5, netAmount := 42, txType := "P2P", notes := "", description := "",
    monthYear := 0, category := "P2P Transfer" }

/-- C8 witness: a range selecting none of the records gives the degenerate
report and the empty monthly summary. -/
theorem empty_filtered_report_witness :
    filterRange [c8Record] 10 20 = [] ∧
    (generate_report_range [c8Record] 10 20).totalTransactions = 0 ∧
    (generate_report_range [c8Record] 10 20).netAmount = 0 ∧
    generate_monthly_summary [c8Record] 10 20 = [] := by
  have h : filterRange [c8Record] 10 20 = [] := by
    simp [filterRange, c8Record, List.filter]
  obtain ⟨h1, h2, -, -, -, -, -, -, -, -, -, -, h13⟩ :=
    empty_filtered_report [c8Record] 10 20 h
  exact ⟨h, h1, h2, h13⟩

end CashApp
